import Mathlib

/-
Verification development for the skincare-concierge multi-agent system.

Shallow embedding of the request-routing / stateful-session core:
  - agents/safety_agent.py        (SafetyAgent.intercept)
  - agents/orchestrator_agent.py  (OrchestratorAgent.classify_intent, OrchestratorAgent.run)
  - agents/calendar_agent.py      (CalendarAgent.plan, CalendarAgent.execute,
                                   CalendarAgent._match_titles, the shared
                                   json.loads-with-salvage adapter)
  - tools/reminder_store.py       (ReminderStore: in-memory list of reminders)
  - tools/product_lookup_tool.py  (ProductLookupTool.search_products)

Modelling conventions:
  - Python strings are Lean Strings; `x in s` (substring) is `pyIn`,
    `s.lower()` is `pyLower` (ASCII lowering, identical to Python on the
    ASCII strings this program manipulates).
  - Parsed JSON values (the output of json.loads on text returned by the
    external LLM capability) are modelled by the inductive `Json`;
    json.loads itself is external (Python stdlib) and is abstracted as a
    function `String → Option Json` (`none` = the call raises).
  - Datetimes are carried as their ISO strings; datetime.fromisoformat
    followed by .isoformat() is the identity on such strings.
  - The external Google calendar (tools/calendar_tool.py) is modelled by
    the list of outbound calls (`ExtCall`) an operation performs; event
    ids, reminder ids and timestamps produced by the environment are
    supplied as explicit arguments.
  - Exceptions escaping a function are modelled with `Except Unit`.
-/

/-- Python `needle in haystack` on the underlying character lists:
`charsLead n h` is true when `n` is a leading segment of `h`. -/
def charsLead : List Char → List Char → Bool
  | [], _ => true
  | _ :: _, [] => false
  | a :: as, b :: bs => a == b && charsLead as bs

/-- `charsWithin n h` is true when `n` occurs contiguously somewhere in `h`
(Python substring membership). -/
def charsWithin (n : List Char) : List Char → Bool
  | [] => n.isEmpty
  | b :: bs => charsLead n (b :: bs) || charsWithin n bs

/-- Python `needle in haystack` for strings (contiguous substring test). -/
def pyIn (needle haystack : String) : Bool := charsWithin needle.data haystack.data

/-- ASCII lower-casing of one character, as Python `str.lower` acts on the
ASCII strings used by this program. -/
def lowerChar (c : Char) : Char :=
  if 65 ≤ c.toNat ∧ c.toNat ≤ 90 then Char.ofNat (c.toNat + 32) else c

/-- Python `s.lower()` (ASCII). -/
def pyLower (s : String) : String := String.mk (s.data.map lowerChar)

/-- Parsed JSON values: the possible results of json.loads on the text the
external text-completion capability returns. Numbers are modelled as
integers (no claim inspects fractional values). -/
inductive Json where
  | null
  | bool (b : Bool)
  | num (n : Int)
  | str (s : String)
  | arr (xs : List Json)
  | obj (kvs : List (String × Json))

/-- Python `dict.get(k)` on a parsed JSON object (keys are unique in a
Python dict, so first occurrence lookup). -/
def jLookup (kvs : List (String × Json)) (k : String) : Option Json :=
  (kvs.find? (fun kv => kv.1 == k)).map (fun kv => kv.2)

/-- Python truthiness of a parsed JSON value (`bool(x)`). -/
def pyTruthy : Json → Bool
  | Json.null => false
  | Json.bool b => b
  | Json.num n => decide (n ≠ 0)
  | Json.str s => !s.isEmpty
  | Json.arr xs => !xs.isEmpty
  | Json.obj kvs => !kvs.isEmpty

/-- Python iteration over a value (`for m in x`): lists yield elements,
strings yield their one-character strings, dicts yield their keys;
anything else raises TypeError (`none`). -/
def pyIterElems : Json → Option (List Json)
  | Json.arr xs => some xs
  | Json.str s => some (s.data.map (fun c => Json.str (String.mk [c])))
  | Json.obj kvs => some (kvs.map (fun kv => Json.str kv.1))
  | _ => none

/-- The dict returned by CalendarAgent._match_titles: `matches` holds the
filtered title strings, `confidence` and `explanation` hold whatever
values the parsed LLM output supplied (or the defaults). -/
structure MatchResult where
  matchedTitles : List String
  confidence : Json
  explanation : Json

/-- CalendarAgent._match_titles, lines 149-157: the post-parse step that
builds the result from the parsed LLM output `data` and the list of
existing reminder titles. Mirrors
  matches = data.get("matches", []) or []
  matches = [m for m in matches if isinstance(m, str) and m in titles]
  return with data.get("confidence", "low") and data.get("explanation", "").
`Except.error` models the unhandled Python exception raised when `data`
is not a dict (AttributeError on .get) or `matches` is not iterable
(TypeError in the comprehension). -/
def matchTitles (data : Json) (titles : List String) : Except Unit MatchResult :=
  match data with
  | Json.obj kvs =>
    let rawMatches := (jLookup kvs "matches").getD (Json.arr [])
    let matchesVal := if pyTruthy rawMatches then rawMatches else Json.arr []
    match pyIterElems matchesVal with
    | none => Except.error ()
    | some elems =>
      let ms := (elems.filterMap (fun e =>
        match e with
        | Json.str s => some s
        | _ => none)).filter (fun m => titles.contains m)
      Except.ok ⟨ms, (jLookup kvs "confidence").getD (Json.str "low"),
                 (jLookup kvs "explanation").getD (Json.str "")⟩
  | _ => Except.error ()

/-- The character U+007B. -/
def lbrace : Char := Char.ofNat 123

/-- The character U+007D. -/
def rbrace : Char := Char.ofNat 125

/-- Python `s.find(c)` restricted to the found case (`none` = -1). -/
def pyFindChar (s : String) (c : Char) : Option Nat :=
  s.data.findIdx? (fun x => x == c)

/-- Python `s.rfind(c)` (`none` = -1). -/
def pyRFindChar (s : String) (c : Char) : Option Nat :=
  match s.data.reverse.findIdx? (fun x => x == c) with
  | some i => some (s.data.length - 1 - i)
  | none => none

/-- Python `s[a:b]` for 0 ≤ a ≤ b. -/
def pySlice (s : String) (a b : Nat) : String :=
  String.mk ((s.data.drop a).take (b - a))

/-- The shared json.loads-with-salvage adapter of CalendarAgent
(_classify_intent lines 82-92 and _match_titles lines 138-147 are
textually identical):
  try: data = json.loads(raw)
  except: start = raw.find("\x7b"); end = raw.rfind("\x7d")
          if start != -1 and end != -1: data = json.loads(raw[start:end+1])
          else: data = \x7b\x7d
`loads` abstracts json.loads (`none` = the call raises). The second
json.loads runs inside the except block with no handler of its own, so
its failure is modelled by `Except.error` (the exception propagates to
the caller). -/
def salvageLoads (loads : String → Option Json) (raw : String) : Except Unit Json :=
  match loads raw with
  | some j => Except.ok j
  | none =>
    match pyFindChar raw lbrace, pyRFindChar raw rbrace with
    | some s, some e =>
      match loads (pySlice raw s (e + 1)) with
      | some j => Except.ok j
      | none => Except.error ()
    | _, _ => Except.ok (Json.obj [])

/-- agents/safety_agent.py TRIGGER_WORDS. -/
def TRIGGER_WORDS : List String :=
  ["bleeding", "severe", "emergency", "rash", "anaphylaxis", "hospital",
   "unconscious", "chest pain", "difficulty breathing", "suicidal",
   "self-harm", "overdose", "seizure", "allergic reaction", "infection",
   "open wound", "burn", "swelling", "vision loss", "loss of consciousness"]

/-- The fixed deflection message SafetyAgent.intercept returns on a match. -/
def BLOCKED_MSG : String := "Please contact a medical professional. I can't answer this."

/-- SafetyAgent.intercept: lowers the text and returns the deflection
message when any configured trigger word occurs as a substring, else
"safe". (The source iterates a set and returns on first match; since
every match yields the same message this equals an `any`. The
`last_safe_text` write happens only on the safe path and is not a session
field, so it is not modelled.) -/
def intercept (triggerWords : List String) (userText : String) : String :=
  if triggerWords.any (fun w => pyIn w (pyLower userText)) then BLOCKED_MSG else "safe"

/-- Ingredient keyword list ING of OrchestratorAgent.classify_intent. -/
def ING : List String :=
  ["niacinamide", "retinol", "tretinoin", "vitamin c", "salicylic",
   "bha", "aha", "glycolic", "lactic", "arbutin", "kojic",
   "tranexamic", "ceramide"]

/-- Calendar keyword list of OrchestratorAgent.classify_intent. -/
def CALENDAR_KEYWORDS : List String := ["remind", "at ", "schedule", "alarm"]

/-- Product keyword list of OrchestratorAgent.classify_intent. -/
def PRODUCT_KEYWORDS : List String := ["suggest", "recommend"]

/-- OrchestratorAgent.classify_intent, lines 79-121: deterministic rule
cascade, first match wins. -/
def classify_intent (text : String) : String :=
  let t := pyLower text
  if t = "yes" ∨ t = "no" ∨ t = "y" ∨ t = "n" then "confirmation"
  else if CALENDAR_KEYWORDS.any (fun k => pyIn k t) then "calendar"
  else if pyIn "profile" t then "profile"
  else if pyIn "those products" t || pyIn "them" t then "followup_products"
  else if pyIn "that routine" t then "followup_routine"
  else if pyIn "that evidence" t then "followup_evidence"
  else if ING.any (fun i => pyIn i t) then "evidence"
  else if PRODUCT_KEYWORDS.any (fun k => pyIn k t) then "product"
  else if pyIn "routine" t then "routine"
  else "none"

/-- The payload dict of a CalendarPlan. Fields mirror the keys the two
plan-building branches of CalendarAgent.plan may put in the dict
(`none` = key absent); execute reads them with dict.get defaults.
`confidence`/`explanation` hold parsed-JSON values verbatim, as the
source stores whatever _match_titles returned. -/
structure Payload where
  title : Option String
  description : Option String
  datetime_iso : Option String
  recurrence : Option String
  matchedTitles : Option (List String)
  confidence : Option Json
  explanation : Option Json

/-- A payload dict with no keys. -/
def emptyPayload : Payload := ⟨none, none, none, none, none, none, none⟩

/-- The plan dict CalendarAgent.plan returns and the orchestrator stores
as pending_calendar_plan. -/
structure PlanD where
  question : String
  intent : String
  needs_confirmation : Bool
  payload : Payload

/-- A persisted reminder entity as built by CalendarAgent.execute and
stored by ReminderStore.add_reminder (which fills id and created_at). -/
structure Reminder where
  title : String
  description : String
  datetime : String
  recurrence : String
  google_event_id : String
  source_agent : String
  id : String
  created_at : String

/-- The normalized result of CalendarAgent._classify_intent (after the
"Minimal defaults" block, lines 95-101). -/
structure IntentInfo where
  intent : String
  title_hint : String
  datetime_text : String
  recurrence : String
  all_reminders : Bool

/-- An outbound call to the external Google calendar
(tools/calendar_tool.py). -/
inductive ExtCall where
  | createEvent (title description startIso recurrence : String)
  | deleteEvent (eventId : String)
deriving DecidableEq

/-- The result dicts CalendarAgent.execute returns, one constructor per
return site. -/
inductive ExecResult where
  | cancelled (question intent details : String)
  | listRes (question : String) (reminders : List Reminder)
  | created (question : String) (reminder : Reminder)
  | noMatches (question : String) (deleted : List String)
  | deletedRes (question : String) (deleted_titles : List String)
  | notImplemented (question intent : String)

/-- The "status" key of each execute result dict. -/
def ExecResult.status : ExecResult → String
  | ExecResult.cancelled _ _ _ => "cancelled"
  | ExecResult.listRes _ _ => "ok"
  | ExecResult.created _ _ => "created"
  | ExecResult.noMatches _ _ => "no_matches"
  | ExecResult.deletedRes _ _ => "deleted"
  | ExecResult.notImplemented _ _ => "not_implemented"

/-- CalendarAgent.plan, lines 184-248. The two LLM-dependent inputs are
passed in: `ii` is the normalized _classify_intent result for the
question and `mr` is the _match_titles result for the question against
the non-empty titles of the stored reminders (only consulted on the
delete branch with at least one stored title, exactly as in the source).
`resolvedDtIso` is _resolve_datetime(ii.datetime_text).isoformat() (time
is external) and `profileStr` is json.dumps(user_profile or ()). -/
def CalendarAgent.plan (question : String) (ii : IntentInfo) (mr : MatchResult)
    (store : List Reminder) (profileStr : String) (resolvedDtIso : String) : PlanD :=
  if ii.intent = "list" then
    ⟨question, "list", false, emptyPayload⟩
  else if ii.intent = "delete" then
    let titles := (store.map (fun r => r.title)).filter (fun t => !t.isEmpty)
    if titles.isEmpty then
      ⟨question, "delete", false,
       ⟨none, none, none, none, some [], none, some (Json.str "No reminders stored.")⟩⟩
    else
      ⟨question, "delete", !mr.matchedTitles.isEmpty,
       ⟨none, none, none, none, some mr.matchedTitles, some mr.confidence, some mr.explanation⟩⟩
  else
    let title_hint := if ii.title_hint.isEmpty then "Skincare Reminder" else ii.title_hint
    let description := question ++ " | Profile: " ++ profileStr
    ⟨question, "create", true,
     ⟨some title_hint, some description, some resolvedDtIso, some ii.recurrence, none, none, none⟩⟩

/-- CalendarAgent.execute, lines 252-363, acting on the reminder store
(tools/reminder_store.py holds a list; add_reminder appends, and
find_by_titles / delete_by_titles select by exact title membership).
`freshId`/`now` are the uuid and utcnow the store would generate,
`eventId` the id the external calendar returns for a created event.
Returns (result dict, new store contents, outbound calendar calls);
`Except.error` models the unhandled exception of the create branch when
payload["datetime_iso"] is absent or empty (dt is then a str and the
subsequent datetime arithmetic raises). Failures of the external
delete_event are swallowed by the source, so deleteEvent calls are
logged unconditionally and never fail. -/
def CalendarAgent.execute (plan : PlanD) (confirm : Bool)
    (selected_titles : Option (List String)) (store : List Reminder)
    (freshId now eventId : String) :
    Except Unit (ExecResult × List Reminder × List ExtCall) :=
  let intent := plan.intent
  let question := plan.question
  if confirm = false ∧ (intent = "create" ∨ intent = "delete" ∨ intent = "update") then
    Except.ok (ExecResult.cancelled question intent "User did not confirm.", store, [])
  else if intent = "list" then
    Except.ok (ExecResult.listRes question store, store, [])
  else if intent = "create" then
    let title := plan.payload.title.getD "Skincare Reminder"
    let description := plan.payload.description.getD question
    let recurrence := plan.payload.recurrence.getD "DAILY"
    match plan.payload.datetime_iso with
    | some dtIso =>
      if dtIso.isEmpty then Except.error ()
      else
        let reminder : Reminder :=
          ⟨title, description, dtIso, recurrence, eventId, "calendar_agent", freshId, now⟩
        Except.ok (ExecResult.created question reminder, store ++ [reminder],
                   [ExtCall.createEvent title description dtIso recurrence])
    | none => Except.error ()
  else if intent = "delete" then
    let matched := plan.payload.matchedTitles.getD []
    let titles_to_delete :=
      match selected_titles with
      | some ts => if ts.isEmpty then matched else ts
      | none => matched
    if titles_to_delete.isEmpty then
      Except.ok (ExecResult.noMatches question [], store, [])
    else
      let to_delete := store.filter (fun r => titles_to_delete.contains r.title)
      let deleted_titles := to_delete.map (fun r => r.title)
      let calls := (to_delete.filter (fun r => !r.google_event_id.isEmpty)).map
        (fun r => ExtCall.deleteEvent r.google_event_id)
      let kept := store.filter (fun r => !deleted_titles.contains r.title)
      Except.ok (ExecResult.deletedRes question deleted_titles, kept, calls)
  else
    Except.ok (ExecResult.notImplemented question intent, store, [])

/-- One user's long-term state dict, as initialized by
OrchestratorAgent._init_user_state. Handler results and the profile are
opaque values produced by the external-capability-backed handlers and
are modelled as parsed JSON. -/
structure UserState where
  profile : Json
  last_routine : Option Json
  last_products : Option Json
  last_evidence : Option Json
  pending_calendar_plan : Option PlanD

/-- The defaults _init_user_state installs on first contact. -/
def defaultUserState : UserState := ⟨Json.obj [], none, none, none, none⟩

/-- The orchestrator's whole mutable state: user_state and
conversation_history dicts keyed by user id, plus the reminder store
contents shared with the calendar agent. -/
structure OrchState where
  user_state : List (String × UserState)
  conversation_history : List (String × List (String × String))
  reminders : List Reminder

/-- Dict lookup keyed by string (Python dict access). -/
def lookupA {α : Type} (l : List (String × α)) (k : String) : Option α :=
  (l.find? (fun kv => kv.1 == k)).map (fun kv => kv.2)

/-- Dict update of an existing key (Python `d[k] = f(d[k])`; no-op when
the key is absent, which never happens after _init_user_state). -/
def updateA {α : Type} (l : List (String × α)) (k : String) (f : α → α) :
    List (String × α) :=
  l.map (fun kv => if kv.1 == k then (kv.1, f kv.2) else kv)

/-- The user's state after _init_user_state (Python reads
self.user_state[user_id]; the default is never observed because init has
always run). -/
def getUser (st : OrchState) (uid : String) : UserState :=
  (lookupA st.user_state uid).getD defaultUserState

/-- OrchestratorAgent._init_user_state, lines 54-63. -/
def initUser (st : OrchState) (uid : String) : OrchState :=
  if (lookupA st.user_state uid).isSome then st
  else ⟨st.user_state ++ [(uid, defaultUserState)],
        st.conversation_history ++ [(uid, [])], st.reminders⟩

/-- self.user_state[user_id]["pending_calendar_plan"] = v. -/
def setPending (st : OrchState) (uid : String) (v : Option PlanD) : OrchState :=
  ⟨updateA st.user_state uid (fun u => ⟨u.profile, u.last_routine, u.last_products, u.last_evidence, v⟩),
   st.conversation_history, st.reminders⟩

/-- _save_state(user_id, "profile", v). -/
def setProfile (st : OrchState) (uid : String) (v : Json) : OrchState :=
  ⟨updateA st.user_state uid (fun u => ⟨v, u.last_routine, u.last_products, u.last_evidence, u.pending_calendar_plan⟩),
   st.conversation_history, st.reminders⟩

/-- _save_state(user_id, "last_evidence", v). -/
def setLastEvidence (st : OrchState) (uid : String) (v : Json) : OrchState :=
  ⟨updateA st.user_state uid (fun u => ⟨u.profile, u.last_routine, u.last_products, some v, u.pending_calendar_plan⟩),
   st.conversation_history, st.reminders⟩

/-- _save_state(user_id, "last_products", v). -/
def setLastProducts (st : OrchState) (uid : String) (v : Json) : OrchState :=
  ⟨updateA st.user_state uid (fun u => ⟨u.profile, u.last_routine, some v, u.last_evidence, u.pending_calendar_plan⟩),
   st.conversation_history, st.reminders⟩

/-- _save_state(user_id, "last_routine", v). -/
def setLastRoutine (st : OrchState) (uid : String) (v : Json) : OrchState :=
  ⟨updateA st.user_state uid (fun u => ⟨u.profile, some v, u.last_products, u.last_evidence, u.pending_calendar_plan⟩),
   st.conversation_history, st.reminders⟩

/-- Replace the reminder store contents. -/
def setReminders (st : OrchState) (rs : List Reminder) : OrchState :=
  ⟨st.user_state, st.conversation_history, rs⟩

/-- A value of one of the response dicts OrchestratorAgent.run returns. -/
inductive RVal where
  | str (s : String)
  | json (j : Json)
  | plan (p : PlanD)
  | exec (r : ExecResult)

/-- Observable steps of one orchestrator turn: which agent capabilities
ran, and which outbound external-calendar calls were made. -/
inductive Event where
  | classifyCalled
  | intakeCalled
  | evidenceCalled
  | productCalled
  | routineCalled
  | calendarPlanCalled
  | calendarExecuteCalled
  | extCall (c : ExtCall)
deriving DecidableEq

/-- The outcome of one OrchestratorAgent.run turn: the returned response
dict (as key/value pairs in source order), the orchestrator state after
the turn, and the observable steps taken. -/
structure RunOut where
  resp : List (String × RVal)
  state : OrchState
  events : List Event

/-- The collaborating agents OrchestratorAgent.run dispatches to, plus
the safety gate's configured trigger words and the environment-supplied
identifiers consumed when a calendar plan is executed this turn. The
intake/evidence/product/routine handlers and CalendarAgent.plan are
LLM/tool-backed and treated as opaque functions. -/
structure Handlers where
  triggers : List String
  intakeHandle : String → String → Json
  intakeGetProfile : String → Json
  evidenceRun : String → Json
  productRun : String → Json → Json
  routineRun : String → Json → Json
  calendarPlan : String → Json → PlanD
  freshId : String
  now : String
  eventId : String

/-- The part of OrchestratorAgent.run after the confirmation block
(lines 157-221): one `if intent == ...: return ...` block per handler,
with the trailing default response. Control reaches it for every intent
that the confirmation block does not return on. -/
def runRest (H : Handlers) (st : OrchState) (user_id query intent : String) :
    Except Unit RunOut :=
  if intent = "profile" then
    let result := H.intakeHandle user_id query
    let newProf := H.intakeGetProfile user_id
    Except.ok ⟨[("intent", RVal.str "profile"), ("result", RVal.json result)],
               setProfile st user_id newProf, [Event.intakeCalled]⟩
  else if intent = "evidence" then
    let ev := H.evidenceRun query
    Except.ok ⟨[("intent", RVal.str "evidence"), ("evidence", RVal.json ev)],
               setLastEvidence st user_id ev, [Event.evidenceCalled]⟩
  else if intent = "product" then
    let profile := (getUser st user_id).profile
    let prod := H.productRun query profile
    Except.ok ⟨[("intent", RVal.str "product"), ("products", RVal.json prod)],
               setLastProducts st user_id prod, [Event.productCalled]⟩
  else if intent = "routine" then
    let profile := (getUser st user_id).profile
    let routine := H.routineRun query profile
    Except.ok ⟨[("intent", RVal.str "routine"), ("routine", RVal.json routine)],
               setLastRoutine st user_id routine, [Event.routineCalled]⟩
  else if intent = "followup_products" then
    let lastProd := (getUser st user_id).last_products
    let truthy := match lastProd with
      | none => false
      | some v => pyTruthy v
    if truthy then
      Except.ok ⟨[("intent", RVal.str "followup_products"),
                  ("products", RVal.json (lastProd.getD Json.null))], st, []⟩
    else
      Except.ok ⟨[("message", RVal.str "I don’t have previous products to reference.")], st, []⟩
  else if intent = "calendar" then
    let profile := (getUser st user_id).profile
    let pl := H.calendarPlan query profile
    if pl.needs_confirmation then
      Except.ok ⟨[("intent", RVal.str "calendar_plan"),
                  ("message", RVal.str "Do you want me to set this reminder? (yes/no)"),
                  ("plan", RVal.plan pl)],
                 setPending st user_id (some pl), [Event.calendarPlanCalled]⟩
    else
      match CalendarAgent.execute pl true none st.reminders H.freshId H.now H.eventId with
      | Except.error e => Except.error e
      | Except.ok (result, store2, calls) =>
        Except.ok ⟨[("intent", RVal.str "calendar"), ("result", RVal.exec result)],
                   setReminders st store2,
                   [Event.calendarPlanCalled, Event.calendarExecuteCalled] ++ calls.map Event.extCall⟩
  else
    Except.ok ⟨[("intent", RVal.str "none"),
                ("message", RVal.str "How can I help with skincare today?")], st, []⟩

/-- Prepend the classify step to a turn outcome (intent classification
ran before the dispatched block). -/
def withClassify : Except Unit RunOut → Except Unit RunOut
  | Except.ok out => Except.ok ⟨out.resp, out.state, Event.classifyCalled :: out.events⟩
  | Except.error e => Except.error e

/-- OrchestratorAgent.run, lines 127-221: init memory, safety gate,
classify, confirmation block (note: on a "yes" the source executes the
pending plan and only then clears it, so an execute exception leaves the
plan pending), then dispatch via `runRest`. The source never calls
_remember, so conversation_history is written only by _init_user_state. -/
def OrchestratorAgent.run (H : Handlers) (st0 : OrchState) (user_id query : String) :
    Except Unit RunOut :=
  let st := initUser st0 user_id
  let safe := intercept H.triggers query
  if safe ≠ "safe" then
    Except.ok ⟨[("intent", RVal.str "unsafe"), ("message", RVal.str safe)], st, []⟩
  else
    let intent := classify_intent query
    if intent = "confirmation" then
      match (getUser st user_id).pending_calendar_plan with
      | none =>
        Except.ok ⟨[("intent", RVal.str "none"),
                    ("message", RVal.str "There is nothing to confirm.")],
                   st, [Event.classifyCalled]⟩
      | some pending =>
        if pyLower query = "yes" ∨ pyLower query = "y" then
          match CalendarAgent.execute pending true none st.reminders H.freshId H.now H.eventId with
          | Except.error e => Except.error e
          | Except.ok (result, store2, calls) =>
            let st2 := setPending (setReminders st store2) user_id none
            Except.ok ⟨[("intent", RVal.str "calendar"), ("result", RVal.exec result),
                        ("message", RVal.str "Reminder set!")],
                       st2,
                       [Event.classifyCalled, Event.calendarExecuteCalled] ++ calls.map Event.extCall⟩
        else if pyLower query = "no" ∨ pyLower query = "n" then
          Except.ok ⟨[("intent", RVal.str "calendar"),
                      ("message", RVal.str "Okay, I cancelled the reminder.")],
                     setPending st user_id none, [Event.classifyCalled]⟩
        else
          withClassify (runRest H st user_id query intent)
    else
      withClassify (runRest H st user_id query intent)

/-- A catalog record: the spreadsheet row as a dict. Cell values are
modelled by their str() rendering, which is what search_products
compares (values reaching the matching logic pass through str()). -/
abbrev Record : Type := List (String × String)

/-- Python `record.get(col)` (None when the column is absent). -/
def recGet (rec : Record) (k : String) : Option String :=
  (rec.find? (fun kv => kv.1 == k)).map (fun kv => kv.2)

/-- Python `patterns.get(col)` for the patterns dict. -/
def patGet (pats : List (String × List String)) (k : String) : Option (List String) :=
  (pats.find? (fun kv => kv.1 == k)).map (fun kv => kv.2)

/-- tools/product_lookup_tool.py: the loaded catalog (column names and
row dicts). -/
structure ProductLookupTool where
  columns : List String
  products : List Record

/-- The hard product_type filter of search_products (lines 71-76): the
record's product_type value, lowered, must contain at least one of the
lowered product_type patterns. -/
def hardFilterOk (pats : List (String × List String)) (product : Record) : Bool :=
  let ptValue := pyLower ((recGet product "product_type").getD "")
  let ptPatterns := ((patGet pats "product_type").getD []).map pyLower
  ptPatterns.any (fun p => pyIn p ptValue)

/-- The OR-match over searched columns of search_products (lines 79-94):
some column has some non-empty pattern occurring (case-insensitively) in
the record's value for that column. -/
def matchedAnyCol (cols : List String) (pats : List (String × List String))
    (product : Record) : Bool :=
  cols.any (fun col =>
    let value := pyLower ((recGet product col).getD "")
    ((patGet pats col).getD []).any (fun pattern =>
      let p := pyLower pattern
      !p.isEmpty && pyIn p value))

/-- The per-record keep decision of the search loop body: the hard filter
(when active) must pass, after which the record is kept if any column
matched or the hard filter was active (lines 96-102). -/
def keepProduct (requirePT : Bool) (cols : List String)
    (pats : List (String × List String)) (product : Record) : Bool :=
  (if requirePT then hardFilterOk pats product else true)
    && (matchedAnyCol cols pats product || requirePT)

/-- The de-duplication pass of search_products (lines 104-113): keep the
first record for each truthy product_name, drop records whose
product_name is absent or empty, tracking seen names. -/
def dedupByName : List Record → List String → List Record
  | [], _ => []
  | p :: rest, seen =>
    match recGet p "product_name" with
    | some name =>
      if !name.isEmpty && !seen.contains name then
        p :: dedupByName rest (name :: seen)
      else
        dedupByName rest seen
    | none => dedupByName rest seen

/-- ProductLookupTool.search_products, lines 40-113: normalize the
searched columns to existing ones, decide whether the product_type hard
filter is active, filter the catalog with the loop body's keep decision,
then de-duplicate by product_name. -/
def search_products (tool : ProductLookupTool) (columns_to_search : List String)
    (patterns : List (String × List String)) : List Record :=
  let cols := columns_to_search.filter (fun c => tool.columns.contains c)
  let requirePT := cols.contains "product_type" &&
    (match patGet patterns "product_type" with
     | some ps => decide (ps.length > 0)
     | none => false)
  let results := tool.products.filter (keepProduct requirePT cols patterns)
  dedupByName results []

/-- A raw LLM reply on which json.loads raises both times: the text
contains a brace pair but the slice from the first U+007B to the last
U+007D is not valid JSON (in Python, json.loads of this very string
raises JSONDecodeError). -/
def malformedRaw : String := "\x7binvalid\x7d"

/-- C7: the JSON-extraction adapter does NOT always fall back to a safe
default. When json.loads fails on the raw text, the raw text contains a
brace pair, and json.loads fails again on the first-brace..last-brace
slice, the second call raises inside the except block and the exception
propagates to the caller (calendar_agent.py lines 82-92 / 138-147 have
no handler around the salvage json.loads). `loads` is any behaviour of
json.loads that fails on this raw text — for `malformedRaw` the salvage
slice is the whole string, so one hypothesis covers both calls. -/
theorem salvage_parse_error_propagates (loads : String → Option Json)
    (h : loads malformedRaw = none) :
    salvageLoads loads malformedRaw = Except.error () := by
  have h1 : pyFindChar malformedRaw lbrace = some 0 := by decide
  have h2 : pyRFindChar malformedRaw rbrace = some 8 := by decide
  have h3 : pySlice malformedRaw 0 (8 + 1) = malformedRaw := by decide
  unfold salvageLoads
  simp only [h, h1, h2, h3]

/-- Witness for C7's theorem at a concrete json.loads behaviour. -/
theorem salvage_parse_error_propagates_witness :
    salvageLoads (fun _ => none) malformedRaw = Except.error () :=
  salvage_parse_error_propagates (fun _ => none) rfl

/-- C4 (amended): whenever the title-matching step returns a result, the
matches it reports are all drawn from the existing title set; the
confidence and explanation fields are the parsed LLM output's values
verbatim, defaulting to "low" / "" only when the keys are absent (the
confidence value is not validated against the high/medium/low set). -/
theorem match_titles_only_existing_titles (kvs : List (String × Json))
    (titles : List String) (r : MatchResult)
    (h : matchTitles (Json.obj kvs) titles = Except.ok r) :
    (∀ m ∈ r.matchedTitles, m ∈ titles) ∧
    r.confidence = (jLookup kvs "confidence").getD (Json.str "low") ∧
    r.explanation = (jLookup kvs "explanation").getD (Json.str "") := by
  simp only [matchTitles] at h
  split at h
  · cases h
  · cases h
    refine ⟨?_, rfl, rfl⟩
    intro m hm
    have hc := (List.mem_filter.mp hm).2
    simpa using hc

/-- Witness for C4's amended theorem at a concrete parsed reply. -/
theorem match_titles_only_existing_titles_witness :
    (∀ m ∈ (MatchResult.mk ["PM Skincare Routine"] (Json.str "high") (Json.str "title match")).matchedTitles,
        m ∈ ["AM Skincare Routine", "PM Skincare Routine"]) ∧
    (MatchResult.mk ["PM Skincare Routine"] (Json.str "high") (Json.str "title match")).confidence =
      (jLookup [("matches", Json.arr [Json.str "PM Skincare Routine"]),
                ("confidence", Json.str "high"),
                ("explanation", Json.str "title match")] "confidence").getD (Json.str "low") ∧
    (MatchResult.mk ["PM Skincare Routine"] (Json.str "high") (Json.str "title match")).explanation =
      (jLookup [("matches", Json.arr [Json.str "PM Skincare Routine"]),
                ("confidence", Json.str "high"),
                ("explanation", Json.str "title match")] "explanation").getD (Json.str "") :=
  match_titles_only_existing_titles
    [("matches", Json.arr [Json.str "PM Skincare Routine"]),
     ("confidence", Json.str "high"), ("explanation", Json.str "title match")]
    ["AM Skincare Routine", "PM Skincare Routine"] _ rfl

/-- The parsed form of an LLM reply
  ("matches": ["PM Skincare Routine"], "confidence": "banana",
   "explanation": "matched the PM reminder")
whose confidence value is outside the documented high/medium/low set. -/
def c4data : Json :=
  Json.obj [("matches", Json.arr [Json.str "PM Skincare Routine"]),
            ("confidence", Json.str "banana"),
            ("explanation", Json.str "matched the PM reminder")]

/-- The existing reminder titles of the C4 scenario. -/
def c4titles : List String := ["AM Skincare Routine", "PM Skincare Routine"]

/-- C4 counterexample: on this reply the matching step returns normally
with confidence "banana", which is in none of high/medium/low — the
source passes data.get("confidence", "low") through unvalidated, so the
claim's "always carries a confidence level in (high, medium, low)" fails. -/
theorem match_titles_confidence_cex :
    ∃ r, matchTitles c4data c4titles = Except.ok r ∧
      r.confidence = Json.str "banana" ∧
      ¬(r.confidence = Json.str "high" ∨ r.confidence = Json.str "medium" ∨
        r.confidence = Json.str "low") := by
  refine ⟨⟨["PM Skincare Routine"], Json.str "banana", Json.str "matched the PM reminder"⟩,
    rfl, rfl, ?_⟩
  rintro (h | h | h) <;>
    (simp only [Json.str.injEq] at h; exact absurd h (by decide))

/-- C5: a delete-intent plan whose title matching yielded zero matches is
produced with needs_confirmation = false, and executing it (on any store
state) leaves the reminder store untouched, makes no external calendar
call, and returns the "no_matches" result with an empty deleted list. -/
theorem delete_plan_zero_matches_noop (question profileStr dtIso : String)
    (ii : IntentInfo) (mr : MatchResult) (storeP storeE : List Reminder)
    (freshId now eventId : String)
    (hIntent : ii.intent = "delete") (hZero : mr.matchedTitles = []) :
    (CalendarAgent.plan question ii mr storeP profileStr dtIso).needs_confirmation = false ∧
    CalendarAgent.execute (CalendarAgent.plan question ii mr storeP profileStr dtIso) true none
        storeE freshId now eventId =
      Except.ok (ExecResult.noMatches question [], storeE, []) ∧
    (ExecResult.noMatches question []).status = "no_matches" := by
  unfold CalendarAgent.plan
  rw [hIntent]
  by_cases hT : ((storeP.map (fun r => r.title)).filter (fun t => !t.isEmpty)).isEmpty <;>
    simp [hT, hZero, CalendarAgent.execute, ExecResult.status]

/-- Witness for C5's theorem at a concrete delete request. -/
theorem delete_plan_zero_matches_noop_witness :
    (CalendarAgent.plan "delete my PM reminder" ⟨"delete", "", "", "DAILY", false⟩
        ⟨[], Json.str "low", Json.str "no title matches"⟩
        [⟨"AM Skincare Routine", "d", "2026-01-01T08:00:00", "DAILY", "ev1", "calendar_agent", "rem_1", "t"⟩]
        "()" "2026-01-02T08:00:00").needs_confirmation = false ∧
    CalendarAgent.execute
        (CalendarAgent.plan "delete my PM reminder" ⟨"delete", "", "", "DAILY", false⟩
          ⟨[], Json.str "low", Json.str "no title matches"⟩
          [⟨"AM Skincare Routine", "d", "2026-01-01T08:00:00", "DAILY", "ev1", "calendar_agent", "rem_1", "t"⟩]
          "()" "2026-01-02T08:00:00") true none
        [⟨"AM Skincare Routine", "d", "2026-01-01T08:00:00", "DAILY", "ev1", "calendar_agent", "rem_1", "t"⟩]
        "rem_2" "t2" "ev2" =
      Except.ok (ExecResult.noMatches "delete my PM reminder" [],
        [⟨"AM Skincare Routine", "d", "2026-01-01T08:00:00", "DAILY", "ev1", "calendar_agent", "rem_1", "t"⟩], []) ∧
    (ExecResult.noMatches "delete my PM reminder" []).status = "no_matches" :=
  delete_plan_zero_matches_noop "delete my PM reminder" "()" "2026-01-02T08:00:00"
    ⟨"delete", "", "", "DAILY", false⟩ ⟨[], Json.str "low", Json.str "no title matches"⟩
    [⟨"AM Skincare Routine", "d", "2026-01-01T08:00:00", "DAILY", "ev1", "calendar_agent", "rem_1", "t"⟩]
    [⟨"AM Skincare Routine", "d", "2026-01-01T08:00:00", "DAILY", "ev1", "calendar_agent", "rem_1", "t"⟩]
    "rem_2" "t2" "ev2" rfl rfl

/-- C8 (amended): the classifier evaluates its rules in the source's
fixed order with first match winning — exact yes/no token, calendar
keyword, "profile", prior-result reference phrase, ingredient keyword,
product keyword, "routine", default "none". There is no mixed_condition
rule: an input that matches no earlier rule and contains an ingredient
keyword is classified "evidence", even when a product-or-routine keyword
is also present. -/
theorem classify_intent_ingredient_wins (text : String)
    (hTok : pyLower text ≠ "yes" ∧ pyLower text ≠ "no" ∧ pyLower text ≠ "y" ∧ pyLower text ≠ "n")
    (hCal : ∀ k ∈ CALENDAR_KEYWORDS, pyIn k (pyLower text) = false)
    (hProf : pyIn "profile" (pyLower text) = false)
    (hThose : pyIn "those products" (pyLower text) = false)
    (hThem : pyIn "them" (pyLower text) = false)
    (hThatR : pyIn "that routine" (pyLower text) = false)
    (hThatE : pyIn "that evidence" (pyLower text) = false)
    (hIng : ∃ i ∈ ING, pyIn i (pyLower text) = true)
    (hProdOrRoutine : (∃ k ∈ PRODUCT_KEYWORDS, pyIn k (pyLower text) = true) ∨
      pyIn "routine" (pyLower text) = true) :
    classify_intent text = "evidence" := by
  have hCal' : CALENDAR_KEYWORDS.any (fun k => pyIn k (pyLower text)) = false := by
    simp only [List.any_eq_false]
    intro k hk
    simp [hCal k hk]
  have hIng' : ING.any (fun i => pyIn i (pyLower text)) = true := by
    obtain ⟨i, hi, hpi⟩ := hIng
    exact List.any_eq_true.mpr ⟨i, hi, by simp [hpi]⟩
  unfold classify_intent
  simp [hTok.1, hTok.2.1, hTok.2.2.1, hTok.2.2.2, hCal', hProf, hThose, hThem,
        hThatR, hThatE, hIng']

/-- Witness for C8's amended theorem at the counterexample input. -/
theorem classify_intent_ingredient_wins_witness :
    classify_intent "suggest a niacinamide serum" = "evidence" :=
  classify_intent_ingredient_wins "suggest a niacinamide serum"
    ⟨by decide, by decide, by decide, by decide⟩ (by decide) (by decide) (by decide)
    (by decide) (by decide) (by decide) ⟨"niacinamide", by decide, by decide⟩
    (Or.inl ⟨"suggest", by decide, by decide⟩)

/-- C8 counterexample: "suggest a niacinamide serum" matches no rule
before the ingredient rule, contains both an ingredient keyword
("niacinamide") and a product keyword ("suggest"), yet classify_intent
returns "evidence" — the source has no mixed_condition branch at all
(ingredient presence returns "evidence" directly, lines 104-111), so the
claim's required "mixed_condition" tag is never produced. -/
theorem classify_intent_no_mixed_condition_cex :
    classify_intent "suggest a niacinamide serum" = "evidence" ∧
    classify_intent "suggest a niacinamide serum" ≠ "mixed_condition" ∧
    pyIn "niacinamide" (pyLower "suggest a niacinamide serum") = true ∧
    pyIn "suggest" (pyLower "suggest a niacinamide serum") = true ∧
    (∀ k ∈ CALENDAR_KEYWORDS, pyIn k (pyLower "suggest a niacinamide serum") = false) ∧
    pyIn "profile" (pyLower "suggest a niacinamide serum") = false ∧
    pyIn "those products" (pyLower "suggest a niacinamide serum") = false ∧
    pyIn "them" (pyLower "suggest a niacinamide serum") = false ∧
    pyIn "that routine" (pyLower "suggest a niacinamide serum") = false ∧
    pyIn "that evidence" (pyLower "suggest a niacinamide serum") = false := by
  refine ⟨by decide, by decide, by decide, by decide, by decide, by decide,
    by decide, by decide, by decide, by decide⟩


/-- Every record the de-duplication pass keeps comes from its input. -/
theorem dedupByName_subset (l : List Record) :
    ∀ (seen : List String) (r : Record), r ∈ dedupByName l seen → r ∈ l := by
  induction l with
  | nil => intro seen r h; simp [dedupByName] at h
  | cons p rest ih =>
    intro seen r h
    simp only [dedupByName] at h
    split at h
    · split at h
      · rcases List.mem_cons.mp h with h1 | h1
        · exact h1 ▸ List.mem_cons_self p rest
        · exact List.mem_cons_of_mem _ (ih _ r h1)
      · exact List.mem_cons_of_mem _ (ih _ r h)
    · exact List.mem_cons_of_mem _ (ih _ r h)

/-- Every record the de-duplication pass keeps has a non-empty
product_name that was not among the already-seen names. -/
theorem dedupByName_names (l : List Record) :
    ∀ (seen : List String) (r : Record), r ∈ dedupByName l seen →
      ∃ n, recGet r "product_name" = some n ∧ n ≠ "" ∧ n ∉ seen := by
  induction l with
  | nil => intro seen r h; simp [dedupByName] at h
  | cons p rest ih =>
    intro seen r h
    simp only [dedupByName] at h
    split at h
    next name heq =>
      split at h
      next hc =>
        have hparts : name.isEmpty = false ∧ seen.contains name = false := by
          simpa [Bool.and_eq_true, Bool.not_eq_true'] using hc
        rcases List.mem_cons.mp h with h1 | h1
        · refine ⟨name, h1 ▸ heq, ?_, ?_⟩
          · intro hcontra
            rw [hcontra] at hparts
            exact absurd hparts.1 (by decide)
          · intro hmem
            have : seen.contains name = true := by simpa using hmem
            rw [hparts.2] at this
            cases this
        · obtain ⟨n, hn, hne, hnseen⟩ := ih _ r h1
          exact ⟨n, hn, hne, fun hmem => hnseen (List.mem_cons_of_mem _ hmem)⟩
      next hc => exact ih _ r h
    next heq => exact ih _ r h

/-- The de-duplication pass never keeps two records with the same
product_name. -/
theorem dedupByName_pairwise (l : List Record) :
    ∀ (seen : List String), (dedupByName l seen).Pairwise
      (fun a b => recGet a "product_name" ≠ recGet b "product_name") := by
  induction l with
  | nil => intro seen; simp [dedupByName]
  | cons p rest ih =>
    intro seen
    simp only [dedupByName]
    split
    next name heq =>
      split
      next hc =>
        refine List.Pairwise.cons ?_ (ih _)
        intro b hb
        obtain ⟨n, hn, _, hnseen⟩ := dedupByName_names rest _ b hb
        rw [heq, hn]
        intro hcontra
        injection hcontra with h1
        exact hnseen (h1 ▸ List.mem_cons_self name seen)
      next hc => exact ih _
    next heq => exact ih _

/-- A record of the input with a given non-empty, not-yet-seen
product_name is represented in the de-duplicated output: some kept
record carries that name. -/
theorem dedupByName_mem_name (l : List Record) :
    ∀ (seen : List String) (r : Record) (n : String), r ∈ l →
      recGet r "product_name" = some n → n ≠ "" → n ∉ seen →
      ∃ r2 ∈ dedupByName l seen, recGet r2 "product_name" = some n := by
  induction l with
  | nil => intro seen r n h; cases h
  | cons p rest ih =>
    intro seen r n hmem hname hne hnseen
    simp only [dedupByName]
    split
    next name heq =>
      split
      next hc =>
        by_cases hpn : name = n
        · exact ⟨p, List.mem_cons_self _ _, by rw [heq, hpn]⟩
        · rcases List.mem_cons.mp hmem with h1 | h1
          · rw [h1, heq] at hname
            injection hname with h2
            exact absurd h2 hpn
          · obtain ⟨r2, hr2, hr2n⟩ := ih (name :: seen) r n h1 hname hne (by
              intro hmem2
              rcases List.mem_cons.mp hmem2 with h2 | h2
              · exact hpn h2.symm
              · exact hnseen h2)
            exact ⟨r2, List.mem_cons_of_mem _ hr2, hr2n⟩
      next hc =>
        rcases List.mem_cons.mp hmem with h1 | h1
        · rw [h1, heq] at hname
          injection hname with h2
          subst h2
          simp only [Bool.and_eq_true, Bool.not_eq_true', not_and] at hc
          have hE : name.isEmpty = false := by
            cases hB : name.isEmpty
            · rfl
            · exact absurd ((String.isEmpty_iff name).mp hB) hne
          have hcontains : seen.contains name = true := by
            cases hB : seen.contains name
            · exact absurd hB (by simpa using hc hE)
            · rfl
          exact absurd (by simpa using hcontains) hnseen
        · exact ih seen r n h1 hname hne hnseen
    next heq =>
      rcases List.mem_cons.mp hmem with h1 | h1
      · rw [h1, heq] at hname
        cases hname
      · exact ih seen r n h1 hname hne hnseen

/-- C6 (amended): when product_type is among the searched (and existing)
columns with a non-empty pattern list, (1) a record whose product_type
matches none of those patterns (case-insensitive substring) is excluded
from the results regardless of its other fields; (2) a record whose
product_type matches at least one pattern passes the filter regardless
of any other column, and the returned list contains a record bearing its
product_name provided that name is non-empty (de-duplication drops
records whose product_name is missing/empty or already represented);
(3) the returned list contains at most one record per product_name. -/
theorem search_products_hard_filter (tool : ProductLookupTool)
    (columns_to_search : List String) (patterns : List (String × List String))
    (ps : List String)
    (hCol : "product_type" ∈ columns_to_search.filter (fun c => tool.columns.contains c))
    (hPat : patGet patterns "product_type" = some ps) (hPs : ps ≠ []) :
    (∀ rec ∈ tool.products,
        (∀ p ∈ ps, pyIn (pyLower p) (pyLower ((recGet rec "product_type").getD "")) = false) →
        rec ∉ search_products tool columns_to_search patterns) ∧
    (∀ rec ∈ tool.products,
        (∃ p ∈ ps, pyIn (pyLower p) (pyLower ((recGet rec "product_type").getD "")) = true) →
        ∀ n, recGet rec "product_name" = some n → n ≠ "" →
        ∃ rec2 ∈ search_products tool columns_to_search patterns,
          recGet rec2 "product_name" = some n) ∧
    (search_products tool columns_to_search patterns).Pairwise
      (fun a b => recGet a "product_name" ≠ recGet b "product_name") := by
  have hcols : (columns_to_search.filter (fun c => tool.columns.contains c)).contains
      "product_type" = true := by
    simpa using hCol
  have hreq : ((columns_to_search.filter (fun c => tool.columns.contains c)).contains "product_type" &&
      (match patGet patterns "product_type" with
       | some ps => decide (ps.length > 0)
       | none => false)) = true := by
    rw [hPat, hcols]
    simpa [List.length_pos] using hPs
  have hsp : search_products tool columns_to_search patterns =
      dedupByName (tool.products.filter
        (keepProduct true (columns_to_search.filter (fun c => tool.columns.contains c)) patterns)) [] := by
    simp only [search_products]
    rw [hreq]
  have hkeep : ∀ rec, keepProduct true
      (columns_to_search.filter (fun c => tool.columns.contains c)) patterns rec =
      hardFilterOk patterns rec := by
    intro rec
    simp [keepProduct]
  refine ⟨?_, ?_, ?_⟩
  · intro rec _ hNoMatch hmemOut
    have hhard : hardFilterOk patterns rec = false := by
      unfold hardFilterOk
      rw [hPat]
      simp only [Option.getD_some, List.any_eq_false]
      intro q hq
      obtain ⟨p, hp, rfl⟩ := List.mem_map.mp hq
      simp [hNoMatch p hp]
    rw [hsp] at hmemOut
    have hmemFilter := dedupByName_subset _ _ _ hmemOut
    have := (List.mem_filter.mp hmemFilter).2
    rw [hkeep rec, hhard] at this
    cases this
  · intro rec hmem hMatch n hname hne
    have hhard : hardFilterOk patterns rec = true := by
      unfold hardFilterOk
      rw [hPat]
      obtain ⟨p, hp, hpi⟩ := hMatch
      simp only [Option.getD_some]
      exact List.any_eq_true.mpr ⟨pyLower p, List.mem_map.mpr ⟨p, hp, rfl⟩, by simp [hpi]⟩
    have hmemFilter : rec ∈ tool.products.filter
        (keepProduct true (columns_to_search.filter (fun c => tool.columns.contains c)) patterns) :=
      List.mem_filter.mpr ⟨hmem, by rw [hkeep rec]; exact hhard⟩
    rw [hsp]
    exact dedupByName_mem_name _ [] rec n hmemFilter hname hne (by simp)
  · rw [hsp]
    exact dedupByName_pairwise _ []

/-- The one-record catalog of the C6 counterexample: the record's
product_type matches the pattern but the record has no product_name. -/
def c6tool : ProductLookupTool :=
  ⟨["product_type", "ingredients"], [[("product_type", "gentle exfoliant gel")]]⟩

/-- C6 counterexample: this record's product_type contains the pattern
"exfoliant", product_type is among the searched columns with a non-empty
pattern list, yet the returned list is empty — the record is not
included, because the de-duplication pass drops any record whose
product_name is missing (lines 104-113 keep a record only under
`if name and name not in seen`). The claim's "a record whose
product_type matches at least one such pattern is included" is
therefore false as stated. -/
theorem search_products_missing_name_cex :
    search_products c6tool ["product_type", "ingredients"]
      [("product_type", ["exfoliant"])] = [] ∧
    pyIn (pyLower "exfoliant")
      (pyLower ((recGet [("product_type", "gentle exfoliant gel")] "product_type").getD "")) = true ∧
    [("product_type", "gentle exfoliant gel")] ∈ c6tool.products := by
  refine ⟨rfl, by decide, by decide⟩

/-- The two-record catalog of the spec's catalog-search example. -/
def c6wTool : ProductLookupTool :=
  ⟨["product_name", "product_type", "ingredients"],
   [[("product_name", "Foam Cleanser"), ("product_type", "cleanser"), ("ingredients", "aloe")],
    [("product_name", "Gentle Exfoliant Gel"), ("product_type", "gentle exfoliant gel"),
     ("ingredients", "aha")]]⟩

/-- Witness for C6's amended theorem at the spec's example search. -/
theorem search_products_hard_filter_witness :
    (∀ rec ∈ c6wTool.products,
        (∀ p ∈ ["exfoliant"],
          pyIn (pyLower p) (pyLower ((recGet rec "product_type").getD "")) = false) →
        rec ∉ search_products c6wTool ["product_type", "ingredients"]
          [("product_type", ["exfoliant"])]) ∧
    (∀ rec ∈ c6wTool.products,
        (∃ p ∈ ["exfoliant"],
          pyIn (pyLower p) (pyLower ((recGet rec "product_type").getD "")) = true) →
        ∀ n, recGet rec "product_name" = some n → n ≠ "" →
        ∃ rec2 ∈ search_products c6wTool ["product_type", "ingredients"]
          [("product_type", ["exfoliant"])],
          recGet rec2 "product_name" = some n) ∧
    (search_products c6wTool ["product_type", "ingredients"]
      [("product_type", ["exfoliant"])]).Pairwise
      (fun a b => recGet a "product_name" ≠ recGet b "product_name") :=
  search_products_hard_filter c6wTool ["product_type", "ingredients"]
    [("product_type", ["exfoliant"])] ["exfoliant"] (by decide) rfl (by decide)

/-- Dict lookup distributes over append (first dict wins). -/
theorem lookupA_append {α : Type} (l1 l2 : List (String × α)) (k : String) :
    lookupA (l1 ++ l2) k = (lookupA l1 k).or (lookupA l2 k) := by
  simp only [lookupA, List.find?_append]
  cases List.find? (fun kv => kv.1 == k) l1 <;> simp

/-- Updating a key and then looking it up sees the update (and nothing
else): the looked-up value is the old one mapped through the update. -/
theorem lookupA_updateA_self {α : Type} (l : List (String × α)) (k : String) (f : α → α) :
    lookupA (updateA l k f) k = (lookupA l k).map f := by
  induction l with
  | nil => simp [lookupA, updateA]
  | cons a rest ih =>
    have h0 : updateA (a :: rest) k f =
        (if (a.1 == k) = true then (a.1, f a.2) else a) :: updateA rest k f := rfl
    cases ha : (a.1 == k)
    · have h1 : updateA (a :: rest) k f = a :: updateA rest k f := by
        rw [h0, if_neg (by simp [ha])]
      rw [h1]
      simp only [lookupA, List.find?_cons, ha]
      simpa only [lookupA] using ih
    · have h1 : updateA (a :: rest) k f = (a.1, f a.2) :: updateA rest k f := by
        rw [h0, if_pos ha]
      rw [h1]
      simp only [lookupA, List.find?_cons, ha]
      simp

/-- A user whose session carries a pending plan is present in the
user_state dict. -/
theorem lookupA_of_pending (st : OrchState) (uid : String) (p : PlanD)
    (h : (getUser st uid).pending_calendar_plan = some p) :
    lookupA st.user_state uid = some (getUser st uid) := by
  unfold getUser at h ⊢
  cases hl : lookupA st.user_state uid
  · rw [hl] at h
    simp [defaultUserState] at h
  · simp

/-- _init_user_state is a no-op for an already-known user. -/
theorem initUser_of_present (st : OrchState) (uid : String)
    (h : (lookupA st.user_state uid).isSome = true) : initUser st uid = st := by
  unfold initUser
  simp [h]

/-- The session _init_user_state yields for the requested user equals the
one getUser reads before init (a fresh user gets exactly the defaults). -/
theorem getUser_initUser (st : OrchState) (uid : String) :
    getUser (initUser st uid) uid = getUser st uid := by
  unfold initUser
  cases hl : lookupA st.user_state uid
  · simp only [hl, Option.isSome_none, Bool.false_eq_true, if_false]
    unfold getUser
    simp only [hl, Option.getD_none]
    rw [lookupA_append, hl]
    simp [lookupA]
  · simp [hl]

/-- Clearing (or setting) the pending plan is visible to the next getUser
of the same user. -/
theorem getUser_setPending_pending (st : OrchState) (uid : String) (v : Option PlanD)
    (h : (lookupA st.user_state uid).isSome = true) :
    (getUser (setPending st uid v) uid).pending_calendar_plan = v := by
  unfold getUser setPending
  simp only []
  rw [lookupA_updateA_self]
  cases hl : lookupA st.user_state uid
  · rw [hl] at h
    cases h
  · simp

/-- C3: for any input containing a configured trigger word as a
case-insensitive substring, the Safety Gate returns the fixed deflection
message (not "safe"), and the orchestrator's run returns immediately
with intent "unsafe": the state is exactly the post-init state (no
session field mutated beyond first-contact creation) and the event trace
is empty (intent classification, handlers and external calls never ran). -/
theorem safety_gate_blocks_triggered_input (H : Handlers) (st : OrchState)
    (uid query : String)
    (h : ∃ w ∈ H.triggers, pyIn w (pyLower query) = true) :
    intercept H.triggers query = BLOCKED_MSG ∧
    OrchestratorAgent.run H st uid query =
      Except.ok ⟨[("intent", RVal.str "unsafe"), ("message", RVal.str BLOCKED_MSG)],
                 initUser st uid, []⟩ := by
  have hint : intercept H.triggers query = BLOCKED_MSG := by
    unfold intercept
    obtain ⟨w, hw, hin⟩ := h
    have hany : H.triggers.any (fun w => pyIn w (pyLower query)) = true :=
      List.any_eq_true.mpr ⟨w, hw, by simp [hin]⟩
    rw [hany]
    simp
  refine ⟨hint, ?_⟩
  unfold OrchestratorAgent.run
  rw [hint]
  rw [if_pos (show BLOCKED_MSG ≠ "safe" by decide)]

/-- C10: a user with no pending plan who sends an exact confirmation
token (yes/no/y/n, any case) gets back the "There is nothing to confirm."
response with intent "none"; the state is exactly the post-init state
(every session field unchanged) and the only event is the classify step
(no handler, no external capability). -/
theorem confirmation_without_pending_is_noop (H : Handlers) (st : OrchState)
    (uid query : String) (hTrig : H.triggers = TRIGGER_WORDS)
    (hPend : (getUser st uid).pending_calendar_plan = none)
    (hTok : pyLower query = "yes" ∨ pyLower query = "no" ∨
            pyLower query = "y" ∨ pyLower query = "n") :
    OrchestratorAgent.run H st uid query =
      Except.ok ⟨[("intent", RVal.str "none"),
                  ("message", RVal.str "There is nothing to confirm.")],
                 initUser st uid, [Event.classifyCalled]⟩ := by
  have hsafe : intercept H.triggers query = "safe" := by
    rw [hTrig]
    unfold intercept
    rcases hTok with h | h | h | h <;> rw [h] <;> decide
  have hcls : classify_intent query = "confirmation" := by
    unfold classify_intent
    rcases hTok with h | h | h | h <;> simp [h]
  have hPend' : (getUser (initUser st uid) uid).pending_calendar_plan = none := by
    rw [getUser_initUser]
    exact hPend
  unfold OrchestratorAgent.run
  rw [hsafe, if_neg (show ¬("safe" ≠ "safe") by simp), hcls,
     if_pos (show "confirmation" = "confirmation" from rfl), hPend']

/-- C2: a user with a pending plan (of any intent) who sends a negative
confirmation token (no/n, any case) gets the cancellation response; the
pending plan is cleared, the reminder store is byte-for-byte unchanged,
and the event trace is just the classify step — the execute phase never
ran and no external calendar call was made. -/
theorem no_confirmation_cancels_plan (H : Handlers) (st : OrchState)
    (uid query : String) (p : PlanD) (hTrig : H.triggers = TRIGGER_WORDS)
    (hPend : (getUser st uid).pending_calendar_plan = some p)
    (hTok : pyLower query = "no" ∨ pyLower query = "n") :
    OrchestratorAgent.run H st uid query =
      Except.ok ⟨[("intent", RVal.str "calendar"),
                  ("message", RVal.str "Okay, I cancelled the reminder.")],
                 setPending st uid none, [Event.classifyCalled]⟩ ∧
    (setPending st uid none).reminders = st.reminders ∧
    (getUser (setPending st uid none) uid).pending_calendar_plan = none := by
  have hpres := lookupA_of_pending st uid p hPend
  have hinit : initUser st uid = st := initUser_of_present st uid (by rw [hpres]; rfl)
  have hsafe : intercept H.triggers query = "safe" := by
    rw [hTrig]
    unfold intercept
    rcases hTok with h | h <;> rw [h] <;> decide
  have hcls : classify_intent query = "confirmation" := by
    unfold classify_intent
    rcases hTok with h | h <;> simp [h]
  have hyesF : ¬(pyLower query = "yes" ∨ pyLower query = "y") := by
    rcases hTok with h | h <;> rw [h] <;> decide
  refine ⟨?_, rfl, getUser_setPending_pending st uid none (by rw [hpres]; rfl)⟩
  unfold OrchestratorAgent.run
  rw [hinit, hsafe, if_neg (show ¬("safe" ≠ "safe") by simp), hcls,
     if_pos (show "confirmation" = "confirmation" from rfl)]
  simp only [hPend]
  rw [if_neg hyesF, if_pos hTok]

/-- C1: a user with a pending create plan who sends an affirmative
confirmation token (yes/y, any case) triggers the execute phase on the
stored plan's payload: exactly one new Reminder (bearing the payload's
title) is appended to the reminder store, and afterwards the pending
plan is cleared. The payload's datetime_iso is present and non-empty, as
is the case for every create plan CalendarAgent.plan produces. -/
theorem yes_confirmation_executes_create_plan (H : Handlers) (st : OrchState)
    (uid query : String) (p : PlanD) (d : String)
    (hTrig : H.triggers = TRIGGER_WORDS)
    (hPend : (getUser st uid).pending_calendar_plan = some p)
    (hIntent : p.intent = "create")
    (hDt : p.payload.datetime_iso = some d) (hDtNe : d.isEmpty = false)
    (hTok : pyLower query = "yes" ∨ pyLower query = "y") :
    ∃ (out : RunOut) (r : Reminder), OrchestratorAgent.run H st uid query = Except.ok out ∧
      out.state.reminders = st.reminders ++ [r] ∧
      r.title = p.payload.title.getD "Skincare Reminder" ∧
      (getUser out.state uid).pending_calendar_plan = none ∧
      out.resp = [("intent", RVal.str "calendar"),
                  ("result", RVal.exec (ExecResult.created p.question r)),
                  ("message", RVal.str "Reminder set!")] ∧
      Event.calendarExecuteCalled ∈ out.events := by
  have hpres := lookupA_of_pending st uid p hPend
  have hinit : initUser st uid = st := initUser_of_present st uid (by rw [hpres]; rfl)
  have hsafe : intercept H.triggers query = "safe" := by
    rw [hTrig]
    unfold intercept
    rcases hTok with h | h <;> rw [h] <;> decide
  have hcls : classify_intent query = "confirmation" := by
    unfold classify_intent
    rcases hTok with h | h <;> simp [h]
  have hexec : CalendarAgent.execute p true none st.reminders H.freshId H.now H.eventId =
      Except.ok (ExecResult.created p.question
          ⟨p.payload.title.getD "Skincare Reminder", p.payload.description.getD p.question,
           d, p.payload.recurrence.getD "DAILY", H.eventId, "calendar_agent", H.freshId, H.now⟩,
        st.reminders ++
          [⟨p.payload.title.getD "Skincare Reminder", p.payload.description.getD p.question,
            d, p.payload.recurrence.getD "DAILY", H.eventId, "calendar_agent", H.freshId, H.now⟩],
        [ExtCall.createEvent (p.payload.title.getD "Skincare Reminder")
          (p.payload.description.getD p.question) d (p.payload.recurrence.getD "DAILY")]) := by
    simp only [CalendarAgent.execute, hIntent, hDt]
    rw [if_neg (show ¬(true = false ∧
        (True ∨ "create" = "delete" ∨ "create" = "update")) by simp),
       if_neg (show ¬(("create" : String) = "list") by decide),
       if_pos (trivial : True),
       if_neg (show ¬(d.isEmpty = true) by simp [hDtNe])]
  refine ⟨⟨[("intent", RVal.str "calendar"),
            ("result", RVal.exec (ExecResult.created p.question
              ⟨p.payload.title.getD "Skincare Reminder", p.payload.description.getD p.question,
               d, p.payload.recurrence.getD "DAILY", H.eventId, "calendar_agent", H.freshId, H.now⟩)),
            ("message", RVal.str "Reminder set!")],
           setPending (setReminders st (st.reminders ++
             [⟨p.payload.title.getD "Skincare Reminder", p.payload.description.getD p.question,
               d, p.payload.recurrence.getD "DAILY", H.eventId, "calendar_agent", H.freshId, H.now⟩]))
             uid none,
           [Event.classifyCalled, Event.calendarExecuteCalled,
            Event.extCall (ExtCall.createEvent (p.payload.title.getD "Skincare Reminder")
              (p.payload.description.getD p.question) d (p.payload.recurrence.getD "DAILY"))]⟩,
    ⟨p.payload.title.getD "Skincare Reminder", p.payload.description.getD p.question,
     d, p.payload.recurrence.getD "DAILY", H.eventId, "calendar_agent", H.freshId, H.now⟩,
    ?_, ?_, ?_, ?_, ?_, ?_⟩
  · unfold OrchestratorAgent.run
    rw [hinit, hsafe, if_neg (show ¬("safe" ≠ "safe") by simp), hcls,
       if_pos (show "confirmation" = "confirmation" from rfl)]
    simp only [hPend]
    rw [if_pos hTok, hexec]
    rfl
  · rfl
  · rfl
  · exact getUser_setPending_pending (setReminders st _) uid none (by simp [setReminders, hpres])
  · rfl
  · simp

/-- A concrete collaborator assembly: the default trigger word list and
fixed opaque handler behaviours / environment identifiers, used to
evaluate the orchestrator on concrete inputs. -/
def trivialHandlers : Handlers :=
  ⟨TRIGGER_WORDS, fun _ _ => Json.null, fun _ => Json.obj [], fun _ => Json.null,
   fun _ _ => Json.null, fun _ _ => Json.null,
   fun _ _ => ⟨"", "list", false, emptyPayload⟩,
   "rem_00000001", "2026-01-01T00:00:00", "evt_1"⟩

/-- The orchestrator state before any turn: no sessions, no history, an
empty reminder store. -/
def emptyOrch : OrchState := ⟨[], [], []⟩

/-- C9: OrchestratorAgent.run never appends to conversation_history — the
_remember helper (lines 65-70) is defined but never called from run. On
this fully dispatched product turn (the product handler ran, as the
event trace shows) the user's history is still the empty list installed
by _init_user_state, not one entry long as the claim requires. -/
theorem run_does_not_append_history :
    OrchestratorAgent.run trivialHandlers emptyOrch "u" "suggest a moisturizer" =
      Except.ok ⟨[("intent", RVal.str "product"), ("products", RVal.json Json.null)],
                 ⟨[("u", ⟨Json.obj [], none, some Json.null, none, none⟩)], [("u", [])], []⟩,
                 [Event.classifyCalled, Event.productCalled]⟩ := rfl

/-- Witness for C3's theorem at a concrete trigger-word input. -/
theorem safety_gate_blocks_triggered_input_witness :
    intercept trivialHandlers.triggers "I have a severe rash" = BLOCKED_MSG ∧
    OrchestratorAgent.run trivialHandlers emptyOrch "u" "I have a severe rash" =
      Except.ok ⟨[("intent", RVal.str "unsafe"), ("message", RVal.str BLOCKED_MSG)],
                 initUser emptyOrch "u", []⟩ :=
  safety_gate_blocks_triggered_input trivialHandlers emptyOrch "u" "I have a severe rash"
    ⟨"severe", by decide, by decide⟩

/-- Witness for C10's theorem at a concrete upper-case token. -/
theorem confirmation_without_pending_is_noop_witness :
    OrchestratorAgent.run trivialHandlers emptyOrch "u" "YES" =
      Except.ok ⟨[("intent", RVal.str "none"),
                  ("message", RVal.str "There is nothing to confirm.")],
                 initUser emptyOrch "u", [Event.classifyCalled]⟩ :=
  confirmation_without_pending_is_noop trivialHandlers emptyOrch "u" "YES" rfl rfl
    (Or.inl rfl)

/-- A pending create plan as CalendarAgent.plan would store it. -/
def c1plan : PlanD :=
  ⟨"Remind me to follow that routine at 9 PM", "create", true,
   ⟨some "PM Skincare Routine",
    some "Remind me to follow that routine at 9 PM | Profile: ()",
    some "2026-01-01T21:00:00", some "DAILY", none, none, none⟩⟩

/-- A one-user orchestrator state whose session holds the pending create
plan and whose reminder store is empty. -/
def c1state : OrchState :=
  ⟨[("u", ⟨Json.obj [], none, none, none, some c1plan⟩)], [("u", [])], []⟩

/-- Witness for C1's theorem at a concrete pending plan and "yes". -/
theorem yes_confirmation_executes_create_plan_witness :
    ∃ (out : RunOut) (r : Reminder),
      OrchestratorAgent.run trivialHandlers c1state "u" "yes" = Except.ok out ∧
      out.state.reminders = c1state.reminders ++ [r] ∧
      r.title = c1plan.payload.title.getD "Skincare Reminder" ∧
      (getUser out.state "u").pending_calendar_plan = none ∧
      out.resp = [("intent", RVal.str "calendar"),
                  ("result", RVal.exec (ExecResult.created c1plan.question r)),
                  ("message", RVal.str "Reminder set!")] ∧
      Event.calendarExecuteCalled ∈ out.events :=
  yes_confirmation_executes_create_plan trivialHandlers c1state "u" "yes" c1plan
    "2026-01-01T21:00:00" rfl rfl rfl rfl rfl (Or.inl rfl)

/-- Witness for C2's theorem at the same pending plan and "No". -/
theorem no_confirmation_cancels_plan_witness :
    OrchestratorAgent.run trivialHandlers c1state "u" "No" =
      Except.ok ⟨[("intent", RVal.str "calendar"),
                  ("message", RVal.str "Okay, I cancelled the reminder.")],
                 setPending c1state "u" none, [Event.classifyCalled]⟩ ∧
    (setPending c1state "u" none).reminders = c1state.reminders ∧
    (getUser (setPending c1state "u" none) "u").pending_calendar_plan = none :=
  no_confirmation_cancels_plan trivialHandlers c1state "u" "No" c1plan rfl rfl
    (Or.inl rfl)
